import Mathlib

/-
Verification of the batch analysis driver in run-mythril.py.

The script is embedded shallowly: the effectful parts (filesystem reads,
subprocess execution) are abstracted as an environment event per contract,
and every pure decision of the script (bytecode extraction, payload
selection, output classification, summary rendering, report rendering)
is translated to a Lean function following the source line by line.
-/

/-- Substring containment over character lists, structural recursion. -/
def containsSubList (pat : List Char) : List Char → Bool
  | [] => List.isPrefixOf pat []
  | c :: cs => List.isPrefixOf pat (c :: cs) || containsSubList pat cs

/-- The Python expression `pat in s` on strings: substring containment. -/
def containsSub (s pat : String) : Bool :=
  containsSubList pat.data s.data

/-- The closed set of per-contract analysis outcomes. Each constructor
corresponds to exactly one return path of analyze_contract in
run-mythril.py: notFound (line 32), readError (line 40), emptyBytecode
(line 48), issuesFound (line 82), clean (line 85), needsReview (line 88),
timeout (line 92), toolMissing (line 96), runtimeError (line 99). -/
inductive Outcome where
  | notFound : Outcome
  | readError : String → Outcome
  | emptyBytecode : Outcome
  | issuesFound : String → Outcome
  | clean : Outcome
  | needsReview : String → Outcome
  | timeout : Outcome
  | toolMissing : Outcome
  | runtimeError : String → Outcome
deriving DecidableEq

/-- Result classifier, lines 79-88 of run-mythril.py: `output` is the
combined stdout+stderr text, `returncode` the subprocess exit code. -/
def classify (output : String) (returncode : Int) : Outcome :=
  if containsSub output "SWC" || containsSub output "Issue" then
    Outcome.issuesFound output
  else if containsSub output "No issues" || returncode == 0 then
    Outcome.clean
  else
    Outcome.needsReview output

/-- Claim C1: if the captured combined output contains the substring
"SWC" or the substring "Issue", the classifier returns issuesFound with
the full captured text as payload, for every exit code, in particular
also when the text contains "No issues". -/
theorem C1_swc_takes_precedence (text : String) (rc : Int)
    (h : containsSub text "SWC" = true ∨ containsSub text "Issue" = true) :
    classify text rc = Outcome.issuesFound text := by
  rcases h with h | h <;> simp [classify, h]

/-- Claim C1 witness: the spec §8 scenario, output "No issues found with
SWC" and exit code 0 is classified issuesFound, not clean. -/
theorem C1_witness :
    classify "No issues found with SWC" 0
      = Outcome.issuesFound "No issues found with SWC" :=
  C1_swc_takes_precedence "No issues found with SWC" 0 (Or.inl (by decide))

/-- The two bytecode fields read from the JSON artifact (lines 43-44).
`none` models an absent key; `artifact.get` maps an absent key to the
default value, the empty string. -/
structure Artifact where
  bytecode : Option String
  deployedBytecode : Option String
deriving DecidableEq

/-- The bytecode payload handed to the analyzer command line, or none when
the emptiness guard of lines 46-48 rejects the artifact before any command
is built. Lines 43-48 and 61 of run-mythril.py: Python truthiness of a
string is non-emptiness, so `not bytecode` is `bytecode = ""` and the
conditional expression on line 61 picks deployedBytecode exactly when it
is non-empty and differs from "0x". -/
def selectedPayload (a : Artifact) : Option String :=
  let bytecode := a.bytecode.getD ""
  let deployed := a.deployedBytecode.getD ""
  if bytecode = "" ∨ bytecode = "0x" then none
  else some (if deployed ≠ "" ∧ deployed ≠ "0x" then deployed else bytecode)

/-- The fixed argument vector of lines 58-65 of run-mythril.py. -/
def buildCmd (payload : String) : List String :=
  ["myth", "analyze", "--bin-runtime", payload,
   "--execution-timeout", "60", "--max-depth", "12",
   "--solver-timeout", "10000"]

/-- Claim C2 counterexample. First input: bytecode = "0x6080" (present,
not "0x"), deployedBytecode present and equal to "" (so not absent and
not "0x"); the claim then demands that the payload equal the
deployedBytecode value "", but the code selects the creation bytecode,
because Python truthiness also treats a present empty string as missing.
Second input: bytecode present and equal to "" (so not "0x"),
deployedBytecode absent; the claim then demands that the payload equal
the bytecode value "", but the code builds no command at all, because the
emptiness guard `not bytecode` also fires on a present empty string. -/
theorem C2_counterexample :
    (selectedPayload (Artifact.mk (some "0x6080") (some "")) = some "0x6080"
      ∧ some ("0x6080" : String) ≠ some ("" : String))
    ∧ (selectedPayload (Artifact.mk (some "") none) = none
      ∧ (none : Option String) ≠ some ("" : String)) := by
  refine ⟨⟨?_, by decide⟩, ⟨?_, by decide⟩⟩ <;> decide

/-- Claim C2 as amended: for every loaded artifact whose bytecode field is
present, non-empty and not "0x", a command is built; its payload is placed
directly after the "--bin-runtime" flag; the payload is the bytecode value
when deployedBytecode is absent, empty or "0x", and the deployedBytecode
value when that field is present, non-empty and not "0x". -/
theorem C2_payload_after_flag (a : Artifact) (b : String)
    (hb : a.bytecode = some b) (h1 : b ≠ "") (h2 : b ≠ "0x") :
    ((a.deployedBytecode = none ∨ a.deployedBytecode = some ""
        ∨ a.deployedBytecode = some "0x") → selectedPayload a = some b)
    ∧ (∀ d, a.deployedBytecode = some d → d ≠ "" → d ≠ "0x" →
        selectedPayload a = some d)
    ∧ ∀ p, (buildCmd p)[2]? = some "--bin-runtime"
        ∧ (buildCmd p)[3]? = some p := by
  refine ⟨?_, ?_, fun p => ⟨rfl, rfl⟩⟩
  · rintro (hd | hd | hd) <;> simp [selectedPayload, hb, hd, h1, h2]
  · intro d hd hd1 hd2
    simp [selectedPayload, hb, hd, h1, h2, hd1, hd2]

/-- Claim C2 witness: bytecode "0x6080" with deployedBytecode "0x" selects
the creation bytecode as the payload. -/
theorem C2_witness :
    selectedPayload (Artifact.mk (some "0x6080") (some "0x")) = some "0x6080" :=
  (C2_payload_after_flag (Artifact.mk (some "0x6080") (some "0x")) "0x6080"
    rfl (by decide) (by decide)).1 (Or.inr (Or.inr rfl))

/-- What the subprocess call of lines 69-74 does when it is reached.
`completed` carries the captured stdout, stderr and exit code; `timedOut`
is the TimeoutExpired path, raised by the runner after it has killed the
child on passing the 90 second wall clock bound; `binaryNotFound` is the
FileNotFoundError path; `otherError` is the generic exception path. -/
inductive SubprocessEvent where
  | completed : String → String → Int → SubprocessEvent
  | timedOut : SubprocessEvent
  | binaryNotFound : SubprocessEvent
  | otherError : String → SubprocessEvent
deriving DecidableEq

/-- The environment one contract meets: its artifact file is missing
(line 30), unreadable or invalid JSON (lines 35-40), or loaded, in which
case the subprocess event describes the analyzer run. -/
inductive ContractEvent where
  | artifactMissing : ContractEvent
  | artifactUnreadable : String → ContractEvent
  | artifactLoaded : Artifact → SubprocessEvent → ContractEvent
deriving DecidableEq

/-- Observable trace of one analyze_contract call: the outcome, whether
the scratch bytecode file of line 51 was created, whether it still exists
when the function returns, and whether the subprocess was invoked. -/
structure AnalyzeTrace where
  outcome : Outcome
  tempCreated : Bool
  tempExistsAtReturn : Bool
  subInvoked : Bool
deriving DecidableEq

/-- The finally block of lines 100-103: remove the scratch file when it
exists, leave the state unchanged otherwise. -/
def finallyCleanup (tmpExists : Bool) : Bool :=
  if tmpExists then false else tmpExists

/-- analyze_contract, lines 21-103 of run-mythril.py, as a trace per
contract event. Guard order follows the source: existence check, read,
bytecode emptiness guard, scratch file write (line 52 sets the file to
existing), then the try block whose every exit — return, TimeoutExpired,
FileNotFoundError, generic exception — runs the finally cleanup. -/
def analyzeTrace : ContractEvent → AnalyzeTrace
  | ContractEvent.artifactMissing =>
      AnalyzeTrace.mk Outcome.notFound false false false
  | ContractEvent.artifactUnreadable e =>
      AnalyzeTrace.mk (Outcome.readError e) false false false
  | ContractEvent.artifactLoaded a sub =>
      let bytecode := a.bytecode.getD ""
      if bytecode = "" ∨ bytecode = "0x" then
        AnalyzeTrace.mk Outcome.emptyBytecode false false false
      else
        let outcome := match sub with
          | SubprocessEvent.completed out err rc => classify (out ++ err) rc
          | SubprocessEvent.timedOut => Outcome.timeout
          | SubprocessEvent.binaryNotFound => Outcome.toolMissing
          | SubprocessEvent.otherError e => Outcome.runtimeError e
        AnalyzeTrace.mk outcome true (finallyCleanup true) true

/-- The outcome of one analyze_contract call. -/
def analyze_contract (e : ContractEvent) : Outcome :=
  (analyzeTrace e).outcome

/-- The Python return value of analyze_contract: None for notFound,
readError, emptyBytecode, toolMissing and runtimeError (lines 32, 40, 48,
96, 99), the captured text for issuesFound and needsReview (lines 82,
88), the literal "No issues found" for clean (line 85) and the literal
"Timeout" for timeout (line 92). -/
def toResult : Outcome → Option String
  | Outcome.notFound => none
  | Outcome.readError _ => none
  | Outcome.emptyBytecode => none
  | Outcome.issuesFound t => some t
  | Outcome.clean => some "No issues found"
  | Outcome.needsReview t => some t
  | Outcome.timeout => some "Timeout"
  | Outcome.toolMissing => none
  | Outcome.runtimeError _ => none

/-- The hardcoded contract list, lines 14-19. -/
def CONTRACTS : List String :=
  ["MOEToken", "DepositContract", "VestingWalletFactory",
   "StageBasedVestingWallet"]

/-- The wall clock bound passed to the subprocess runner, line 73. -/
def wallClockTimeoutSeconds : Nat := 90

/-- The results dictionary built by the loop of lines 113-115: one entry
per contract, in list order, keyed by the contract name. -/
def runResults (events : String → ContractEvent) :
    List (String × Option String) :=
  CONTRACTS.map fun c => (c, toResult (analyze_contract (events c)))

/-- Summary status of one stored result, lines 122-132: None is the
failed glyph, then the literal comparisons against "Timeout" and
"No issues found", then the substring checks, else the manual review
glyph. -/
def statusOf : Option String → String
  | none => "❌ 失败"
  | some r =>
      if r = "Timeout" then "⏱️  超时"
      else if r = "No issues found" then "✅ 安全"
      else if containsSub r "SWC" || containsSub r "Issue" then "⚠️  发现问题"
      else "⚠️  需要人工审查"

/-- Left justified padding to a minimum width, the format spec `:30s` of
line 134. -/
def padTo (s : String) (n : Nat) : String :=
  s ++ String.mk (List.replicate (n - s.length) ' ')

/-- One console summary line, line 134. -/
def summaryLine (contract : String) (result : Option String) : String :=
  padTo contract 30 ++ " " ++ statusOf result

/-- The summary table, one line per stored result, in storage order. -/
def summaryLines (results : List (String × Option String)) : List String :=
  results.map fun p => summaryLine p.1 p.2

/-- The sixty character separator `"="*60`. -/
def border : String := String.mk (List.replicate 60 '=')

/-- The fixed marker written when a result is missing, line 150. -/
def failurePlaceholder : String := "分析失败或未完成\n"

/-- Python truthiness of a stored result: None and the empty string are
falsy, every other string is truthy (the `if result:` test on line 147). -/
def pyTruthy : Option String → Bool
  | none => false
  | some s => !(s = "")

/-- Body of one report section, lines 147-150: the stored text when it is
truthy, the fixed failure marker otherwise. -/
def sectionBody (result : Option String) : String :=
  if pyTruthy result then result.getD "" else failurePlaceholder

/-- One bordered report section, lines 143-152. -/
def reportSection (contract : String) (result : Option String) : String :=
  "\n" ++ border ++ "\n" ++ "合约: " ++ contract ++ "\n" ++ border ++ "\n\n"
    ++ sectionBody result ++ "\n\n"

/-- The report header, lines 139-140. -/
def reportHeader : String :=
  "MoeGirls Project - Mythril 安全分析结果\n" ++ border ++ "\n\n"

/-- The section list of the report, one section per stored result, in
storage order (the loop of lines 142-152). -/
def reportBodySections (results : List (String × Option String)) :
    List String :=
  results.map fun p => reportSection p.1 p.2

/-- The full report file content. -/
def report (results : List (String × Option String)) : String :=
  reportHeader ++ String.join (reportBodySections results)

/-- The file content after the write of lines 137-152: mode "w" truncates,
so the previous content of the file is ignored entirely. -/
def writeReportFile (_previous : String)
    (results : List (String × Option String)) : String :=
  report results

/-- The artifact path pattern of line 28. -/
def artifactPath (name : String) : String :=
  "artifacts/contracts/" ++ name ++ ".sol/" ++ name ++ ".json"

/-- The per-contract console message printed at the point where each
outcome arises (lines 31, 39, 47, 80-81, 84, 87, 91, 94-95, 98). -/
def occurrenceMessage (name : String) : Outcome → String
  | Outcome.notFound => "❌ 未找到artifact: " ++ artifactPath name
  | Outcome.readError e => "❌ 读取artifact失败: " ++ e
  | Outcome.emptyBytecode => "❌ 未找到bytecode"
  | Outcome.issuesFound t => "\n⚠️  发现安全问题:\n\n" ++ t
  | Outcome.clean => "✅ 未发现安全问题"
  | Outcome.needsReview t => "⚠️  分析完成，输出:\n" ++ t
  | Outcome.timeout => "⏱️  分析超时（90秒）"
  | Outcome.toolMissing => "❌ Mythril未安装或未在PATH中\n请运行: pip install mythril"
  | Outcome.runtimeError e => "❌ 运行Mythril时出错: " ++ e

/-- The amended report body rule: the stored payload when the outcome
carries a non-empty payload, the fixed failure marker when the result is
None or the payload is the empty string. -/
def specSectionBody : Option String → String
  | none => failurePlaceholder
  | some t => if t = "" then failurePlaceholder else t

/-- Mapping first projection over a list tagged with itself returns the
list: the shape of runResults. -/
theorem list_map_pair_fst (f : String → Option String) (l : List String) :
    (l.map fun c => (c, f c)).map Prod.fst = l := by
  induction l with
  | nil => rfl
  | cons a t ih => simp [ih]

/-- Claim C3: for every assignment of per-contract events — every listed
failure is a constructor of the event type and analyzeTrace is total on
it, so each one is converted into an outcome value — the run stores one
result per contract in list order, prints one summary line per contract,
and writes the report as the header followed by one section per contract;
no per-contract failure aborts the run. -/
theorem C3_no_failure_aborts_run :
    ∀ events : String → ContractEvent,
      (runResults events).map Prod.fst = CONTRACTS
      ∧ (runResults events).length = CONTRACTS.length
      ∧ (summaryLines (runResults events)).length = CONTRACTS.length
      ∧ (reportBodySections (runResults events)).length = CONTRACTS.length
      ∧ report (runResults events)
          = reportHeader ++ String.join (reportBodySections (runResults events)) := by
  intro events
  refine ⟨list_map_pair_fst _ CONTRACTS, ?_, ?_, ?_, rfl⟩ <;>
    simp [runResults, summaryLines, reportBodySections]

/-- Claim C4 counterexample: when the binary is absent the outcome is
toolMissing, but in the user visible reporting it is not distinct from
the other failure outcomes: its summary status string and its report
section body are identical to those of notFound, readError,
emptyBytecode and runtimeError. -/
theorem C4_counterexample :
    analyze_contract (ContractEvent.artifactLoaded
        (Artifact.mk (some "0x6080") none) SubprocessEvent.binaryNotFound)
      = Outcome.toolMissing
    ∧ statusOf (toResult Outcome.toolMissing) = statusOf (toResult Outcome.notFound)
    ∧ statusOf (toResult Outcome.toolMissing)
        = statusOf (toResult (Outcome.readError "boom"))
    ∧ statusOf (toResult Outcome.toolMissing) = statusOf (toResult Outcome.emptyBytecode)
    ∧ statusOf (toResult Outcome.toolMissing)
        = statusOf (toResult (Outcome.runtimeError "boom"))
    ∧ sectionBody (toResult Outcome.toolMissing) = sectionBody (toResult Outcome.notFound)
    ∧ sectionBody (toResult Outcome.toolMissing)
        = sectionBody (toResult (Outcome.readError "boom"))
    ∧ sectionBody (toResult Outcome.toolMissing)
        = sectionBody (toResult Outcome.emptyBytecode)
    ∧ sectionBody (toResult Outcome.toolMissing)
        = sectionBody (toResult (Outcome.runtimeError "boom")) := by
  exact ⟨by decide, rfl, rfl, rfl, rfl, rfl, rfl, rfl, rfl⟩

/-- Claim C4 as amended: when the binary cannot be located or executed the
outcome is toolMissing, and the distinction from the other failures is
only the console message printed at the point of occurrence, which is the
fixed remediation hint; in the summary the status is the same generic
failed glyph as the other failures, and in the report the section body is
the same fixed failure marker. -/
theorem C4_tool_missing_amended (a : Artifact) (b : String)
    (hb : a.bytecode = some b) (h1 : b ≠ "") (h2 : b ≠ "0x") :
    analyze_contract (ContractEvent.artifactLoaded a SubprocessEvent.binaryNotFound)
      = Outcome.toolMissing
    ∧ (∀ name, occurrenceMessage name Outcome.toolMissing
        = "❌ Mythril未安装或未在PATH中\n请运行: pip install mythril")
    ∧ statusOf (toResult Outcome.toolMissing) = "❌ 失败"
    ∧ sectionBody (toResult Outcome.toolMissing) = failurePlaceholder := by
  refine ⟨?_, fun _ => rfl, rfl, rfl⟩
  simp [analyze_contract, analyzeTrace, hb, h1, h2]

/-- Claim C4 witness. -/
theorem C4_witness :
    analyze_contract (ContractEvent.artifactLoaded
        (Artifact.mk (some "0x6080") none) SubprocessEvent.binaryNotFound)
      = Outcome.toolMissing :=
  (C4_tool_missing_amended (Artifact.mk (some "0x6080") none) "0x6080"
    rfl (by decide) (by decide)).1

/-- Claim C5: a missing artifact file yields outcome notFound with no
subprocess invocation, and the run still stores a result for every
contract of the list whatever the events are. -/
theorem C5_artifact_missing :
    (analyzeTrace ContractEvent.artifactMissing).outcome = Outcome.notFound
    ∧ (analyzeTrace ContractEvent.artifactMissing).subInvoked = false
    ∧ (analyzeTrace ContractEvent.artifactMissing).tempCreated = false
    ∧ ∀ events : String → ContractEvent,
        (runResults events).map Prod.fst = CONTRACTS :=
  ⟨rfl, rfl, rfl, fun _ => list_map_pair_fst _ CONTRACTS⟩

/-- Claim C6: an artifact whose bytecode field is absent or equal to "0x"
yields outcome emptyBytecode and neither the scratch file nor the
subprocess is touched, whatever the subprocess event would have been. -/
theorem C6_empty_bytecode (a : Artifact)
    (h : a.bytecode = none ∨ a.bytecode = some "0x") (sub : SubprocessEvent) :
    (analyzeTrace (ContractEvent.artifactLoaded a sub)).outcome
      = Outcome.emptyBytecode
    ∧ (analyzeTrace (ContractEvent.artifactLoaded a sub)).subInvoked = false
    ∧ (analyzeTrace (ContractEvent.artifactLoaded a sub)).tempCreated = false := by
  rcases h with h | h <;> simp [analyzeTrace, h]

/-- Claim C6 witness. -/
theorem C6_witness :
    (analyzeTrace (ContractEvent.artifactLoaded (Artifact.mk none none)
        SubprocessEvent.timedOut)).outcome = Outcome.emptyBytecode
    ∧ (analyzeTrace (ContractEvent.artifactLoaded (Artifact.mk none none)
        SubprocessEvent.timedOut)).subInvoked = false
    ∧ (analyzeTrace (ContractEvent.artifactLoaded (Artifact.mk none none)
        SubprocessEvent.timedOut)).tempCreated = false :=
  C6_empty_bytecode (Artifact.mk none none) (Or.inl rfl) SubprocessEvent.timedOut

/-- Claim C7: when the spawned subprocess exceeds the 90 second wall
clock bound — the runner kills it and raises the timeout exception, here
the timedOut event — the outcome is timeout, the stored result is the
literal "Timeout", the summary shows the timeout status, the bound is 90
seconds, and the run still stores a result for every contract. -/
theorem C7_timeout_outcome (a : Artifact) (b : String)
    (hb : a.bytecode = some b) (h1 : b ≠ "") (h2 : b ≠ "0x") :
    analyze_contract (ContractEvent.artifactLoaded a SubprocessEvent.timedOut)
      = Outcome.timeout
    ∧ toResult Outcome.timeout = some "Timeout"
    ∧ statusOf (toResult Outcome.timeout) = "⏱️  超时"
    ∧ wallClockTimeoutSeconds = 90
    ∧ ∀ events : String → ContractEvent,
        (runResults events).map Prod.fst = CONTRACTS := by
  refine ⟨?_, rfl, rfl, rfl, fun _ => list_map_pair_fst _ CONTRACTS⟩
  simp [analyze_contract, analyzeTrace, hb, h1, h2]

/-- Claim C7 witness. -/
theorem C7_witness :
    analyze_contract (ContractEvent.artifactLoaded
        (Artifact.mk (some "0x6080") none) SubprocessEvent.timedOut)
      = Outcome.timeout :=
  (C7_timeout_outcome (Artifact.mk (some "0x6080") none) "0x6080"
    rfl (by decide) (by decide)).1

/-- Claim C8: for every contract whose bytecode passes the emptiness
guard, the scratch file is created before the invocation, and on every
exit path of the invocation — completion, timeout, binary not found,
other exception, all quantified by the subprocess event — the finally
cleanup leaves the file removed when the call returns. -/
theorem C8_temp_file_cleanup (a : Artifact) (b : String)
    (hb : a.bytecode = some b) (h1 : b ≠ "") (h2 : b ≠ "0x")
    (sub : SubprocessEvent) :
    (analyzeTrace (ContractEvent.artifactLoaded a sub)).tempCreated = true
    ∧ (analyzeTrace (ContractEvent.artifactLoaded a sub)).tempExistsAtReturn
        = false := by
  constructor <;> simp [analyzeTrace, hb, h1, h2, finallyCleanup]

/-- Claim C8 witness. -/
theorem C8_witness :
    (analyzeTrace (ContractEvent.artifactLoaded (Artifact.mk (some "0x6080") none)
        SubprocessEvent.binaryNotFound)).tempCreated = true
    ∧ (analyzeTrace (ContractEvent.artifactLoaded (Artifact.mk (some "0x6080") none)
        SubprocessEvent.binaryNotFound)).tempExistsAtReturn = false :=
  C8_temp_file_cleanup (Artifact.mk (some "0x6080") none) "0x6080"
    rfl (by decide) (by decide) SubprocessEvent.binaryNotFound

/-- Claim C9 counterexample: empty captured output with a nonzero exit
code classifies as needsReview with the empty payload; the stored result
is the empty string, and the report section body for it is the fixed
failure marker, not the payload text, although needsReview is one of the
outcomes the claim lists as carrying text. -/
theorem C9_counterexample :
    classify ("" ++ "") 1 = Outcome.needsReview ""
    ∧ toResult (Outcome.needsReview "") = some ""
    ∧ sectionBody (some "") = failurePlaceholder
    ∧ sectionBody (some "") ≠ "" := by
  refine ⟨by decide, rfl, rfl, by decide⟩

/-- Claim C9 as amended: the report is the header followed by exactly one
bordered section per contract in list order; each section body is the
stored payload when that payload is a non-empty string and the fixed
failure marker when the result is None or the payload is empty — in
particular also for a needsReview outcome with empty payload; and the
file content after a run is independent of the previous file content
(truncating rewrite). -/
theorem C9_report_structure_amended :
    (∀ events : String → ContractEvent,
      (runResults events).map Prod.fst = CONTRACTS
      ∧ (reportBodySections (runResults events)).length = CONTRACTS.length)
    ∧ (∀ r : Option String, sectionBody r = specSectionBody r)
    ∧ (∀ prev1 prev2 : String, ∀ results : List (String × Option String),
        writeReportFile prev1 results = writeReportFile prev2 results)
    ∧ (∀ c : String, ∀ r : Option String,
        reportSection c r
          = "\n" ++ border ++ "\n" ++ "合约: " ++ c ++ "\n" ++ border ++ "\n\n"
            ++ sectionBody r ++ "\n\n") := by
  refine ⟨fun events => ⟨list_map_pair_fst _ CONTRACTS, ?_⟩, ?_,
    fun _ _ _ => rfl, fun _ _ => rfl⟩
  · simp [reportBodySections, runResults]
  · intro r
    cases r with
    | none => rfl
    | some t => by_cases h : t = "" <;> simp [sectionBody, specSectionBody, pyTruthy, h]

/-- Claim C10: empty captured output with nonzero exit code yields
needsReview with empty payload; the summary then shows the manual review
status for that contract, while the report section body is the fixed
failure marker — identical to the body written for the failure outcomes,
and the marker differs from the empty payload — so summary and report
disagree about whether the analysis completed. -/
theorem C10_summary_report_disagree :
    classify ("" ++ "") 1 = Outcome.needsReview ""
    ∧ statusOf (toResult (Outcome.needsReview "")) = "⚠️  需要人工审查"
    ∧ sectionBody (toResult (Outcome.needsReview "")) = failurePlaceholder
    ∧ sectionBody (toResult (Outcome.needsReview ""))
        = sectionBody (toResult Outcome.notFound)
    ∧ statusOf (toResult Outcome.notFound)
        ≠ statusOf (toResult (Outcome.needsReview "")) := by
  exact ⟨by decide, rfl, rfl, rfl, by decide⟩
